import Mathlib

/-!
Verification of the backend gateway in `src/server.js`: the retry helper
`retryRequest`, the TTL cache, the per-client rate limiter, and the three
request handlers (translate, summarize, analyze-symptoms), shallowly
embedded as executable Lean definitions.
-/

namespace Gateway

/-- Whether the character list `s` starts with the pattern `pat`. -/
def matchAt : List Char → List Char → Bool
  | [], _ => true
  | _ :: _, [] => false
  | p :: ps, c :: cs => p == c && matchAt ps cs

/-- Whether the character list `s` contains `pat` as a contiguous run. -/
def containsChars : List Char → List Char → Bool
  | [], pat => pat.isEmpty
  | c :: cs, pat => matchAt pat (c :: cs) || containsChars cs pat

/-- Substring test, modelling the JavaScript `String.prototype.includes`. -/
def strContainsSub (s pat : String) : Bool :=
  containsChars s.data pat.data

/-- The payload of an upstream HTTP error response, as `retryRequest`
inspects it: `status` is `error.response.status`, `retryAfter` is the
optional `retry-after` header (in seconds), and `errMessage` is the
optional `error.response.data.error.message` string. -/
structure ErrResponse where
  status : Nat
  retryAfter : Option Nat
  errMessage : Option String
  deriving DecidableEq, Repr

/-- An axios error: `response` is present when the server answered with a
non-2xx status, absent on a network failure; `message` is `error.message`. -/
structure UpError where
  response : Option ErrResponse
  message : String
  deriving DecidableEq, Repr

/-- One upstream exchange: a successful response carrying its payload
string, or an error. -/
inductive UpResp where
  | ok (data : String)
  | err (e : UpError)
  deriving DecidableEq, Repr

/-- The quota test of `retryRequest`:
`error.response.data?.error?.message.includes('Quota exceeded')`, with the
optional chain short-circuiting to false when the message is absent. -/
def quotaExceededMsg : Option String → Bool
  | some m => strContainsSub m "Quota exceeded"
  | none => false

/-- How a run of `retryRequest` ends: a successful response payload, the
terminal quota-exhaustion error it throws itself, or a propagated upstream
error. -/
inductive Outcome where
  | success (data : String)
  | quotaExhausted
  | failure (e : UpError)
  deriving DecidableEq, Repr

/-- Observable result of a `retryRequest` run: its outcome, how many
upstream attempts (axios calls) it issued, and the total time in
milliseconds it spent waiting between attempts. -/
structure RunResult where
  outcome : Outcome
  attempts : Nat
  totalWaitMs : Nat
  deriving DecidableEq, Repr

/-- `retryRequest` of `src/server.js` lines 49-66. The upstream is an
oracle giving the response to the n-th attempt. On success the response is
returned. On an error whose response has status 429 while retries remain:
if the body's error message contains `Quota exceeded`, a terminal quota
error is thrown; otherwise the function waits `retry-after * 1000` ms
(falling back to `initialDelay / 1000` seconds when the header is absent)
and recurses with one fewer retry and the initial delay doubled. Every
other error, including a 429 with the retry budget exhausted, is
propagated as is. -/
def retryRequest (upstream : Nat → UpResp) (attempt retries initialDelay : Nat) :
    RunResult :=
  match upstream attempt, retries with
  | .ok data, _ => ⟨.success data, 1, 0⟩
  | .err e, 0 => ⟨.failure e, 1, 0⟩
  | .err e, retries' + 1 =>
    match e.response with
    | none => ⟨.failure e, 1, 0⟩
    | some r =>
      if r.status = 429 then
        if quotaExceededMsg r.errMessage then
          ⟨.quotaExhausted, 1, 0⟩
        else
          let retryAfter := r.retryAfter.getD (initialDelay / 1000)
          let delay := retryAfter * 1000
          let rest := retryRequest upstream (attempt + 1) retries' (initialDelay * 2)
          ⟨rest.outcome, rest.attempts + 1, rest.totalWaitMs + delay⟩
      else ⟨.failure e, 1, 0⟩

/-- Default maximum retries of `retryRequest`. -/
def defaultRetries : Nat := 5

/-- Default initial delay of `retryRequest`, in milliseconds. -/
def defaultInitialDelay : Nat := 2000

/-- A `retryRequest` run with the defaults, as both call sites in
`src/server.js` invoke it. -/
def retryRequestDefault (upstream : Nat → UpResp) : RunResult :=
  retryRequest upstream 0 defaultRetries defaultInitialDelay

/-- Recognises an upstream answer that is an error with status 429 and no
quota-exhaustion message: the only kind of answer `retryRequest` retries. -/
def is429NonQuota : UpResp → Bool
  | .ok _ => false
  | .err e =>
    match e.response with
    | some r => r.status = 429 && !(quotaExceededMsg r.errMessage)
    | none => false

/-- Values stored in the response cache: summaries and analyses are plain
strings, translate results are the full result objects. -/
inductive CVal where
  | str (s : String)
  | trRes (detectedLanguage translatedText : String) (message : Option String)
  deriving DecidableEq, Repr

/-- JavaScript truthiness of a cached value, for the `if (cachedResult)`
hit tests in the handlers: an empty string is falsy, everything else
truthy. -/
def CVal.truthy : CVal → Bool
  | .str s => s ≠ ""
  | .trRes _ _ _ => true

/-- TTL of the response cache in milliseconds: `stdTTL: 3600` seconds. -/
def cacheTTLms : Nat := 3600 * 1000

/-- The response cache, modelling the `node-cache` instance of
`src/server.js` line 29 as configured there: each key maps to a value and
its expiry instant (set time plus TTL), in milliseconds. -/
structure Cache where
  entries : String → Option (CVal × Nat)

/-- The empty cache. -/
def Cache.empty : Cache := ⟨fun _ => none⟩

/-- `cache.set(key, value)` at time `now`: the entry becomes visible with
expiry `now + TTL`. -/
def Cache.set (c : Cache) (k : String) (v : CVal) (now : Nat) : Cache :=
  ⟨fun k' => if k' = k then some (v, now + cacheTTLms) else c.entries k'⟩

/-- `cache.get(key)` at time `now`: a stored entry is returned while
`now` has not passed its expiry, and is a miss strictly after it, matching
the node-cache validity test (an entry is dead iff its expiry instant is
strictly below the current time). -/
def Cache.get (c : Cache) (k : String) (now : Nat) : Option CVal :=
  match c.entries k with
  | some (v, t) => if t < now then none else some v
  | none => none

/-- JavaScript falsiness of an optional string field: absent or empty. -/
def jsFalsy : Option String → Bool
  | none => true
  | some s => s = ""

/-- Observable side effects of a handler run, in emission order: a
`status` event on the socket channel, a cache read, a cache write, or an
outbound upstream call (tagged `detect`, `translate` or `ai`). -/
inductive Event where
  | statusEmit (action message : String)
  | cacheRead (key : String)
  | cacheWrite (key : String)
  | upstreamCall (which : String)
  deriving DecidableEq, Repr

/-- JSON response bodies the server produces. -/
inductive RespBody where
  | errOnly (error : String)
  | errDetails (error details : String)
  | translateResp (detectedLanguage translatedText : String) (message : Option String)
  | summaryResp (summary : String)
  | analysisResp (analysis : String)
  | rateLimitResp (error details : String)
  | jsonStr (s : String)
  deriving DecidableEq, Repr

/-- Result of running a handler on one request: HTTP status, JSON body,
the list of side effects in order, and the cache afterwards. -/
structure HandlerOut where
  status : Nat
  body : RespBody
  events : List Event
  cache : Cache

/-- `res.json(cachedResult)` for a translate cache hit: the stored result
object becomes the body (a stored bare string would be sent as a JSON
string). -/
def translateRespOfCVal : CVal → RespBody
  | .trRes d tr m => .translateResp d tr m
  | .str s => .jsonStr s

/-- The string content of a cached value, as the summarize and symptoms
handlers read it back (they only ever store bare strings). -/
def CVal.asStr : CVal → String
  | .str s => s
  | .trRes _ _ _ => ""

/-- The `POST /translate` handler of `src/server.js` lines 74-117, given
oracles for the two Google sub-endpoints: `detect text` yields the
detected language, `translateApi text source target` the translated text.
Missing or empty `text`/`targetLanguage` is rejected with 400 before any
effect; otherwise a `Translating...` status is emitted, the cache is
consulted, and on a miss detection runs first, translation only when the
detected language differs from the target. -/
def translateHandler (detect : String → Except UpError String)
    (translateApi : String → String → String → Except UpError String)
    (c : Cache) (now : Nat) (text targetLanguage : Option String) : HandlerOut :=
  if jsFalsy text || jsFalsy targetLanguage then
    ⟨400, .errOnly "Text and target language are required.", [], c⟩
  else
    let t := text.getD ""
    let tl := targetLanguage.getD ""
    let e0 := [Event.statusEmit "translate" "Translating..."]
    let key := "translate:" ++ t ++ ":" ++ tl
    let e1 := e0 ++ [Event.cacheRead key]
    let hit := match c.get key now with
      | some v => if v.truthy then some v else none
      | none => none
    match hit with
    | some v =>
      ⟨200, translateRespOfCVal v,
        e1 ++ [Event.statusEmit "translate" "Translation complete (cached)."], c⟩
    | none =>
      let e2 := e1 ++ [Event.upstreamCall "detect"]
      match detect t with
      | .error err =>
        ⟨500, .errDetails "Translation failed" err.message,
          e2 ++ [Event.statusEmit "translate" "Translation failed."], c⟩
      | .ok detected =>
        if detected = tl then
          ⟨200, .translateResp detected t (some "Same language detected."),
            e2 ++ [Event.cacheWrite key, Event.statusEmit "translate" "Translation complete."],
            c.set key (.trRes detected t (some "Same language detected.")) now⟩
        else
          let e3 := e2 ++ [Event.upstreamCall "translate"]
          match translateApi t detected tl with
          | .error err =>
            ⟨500, .errDetails "Translation failed" err.message,
              e3 ++ [Event.statusEmit "translate" "Translation failed."], c⟩
          | .ok translated =>
            ⟨200, .translateResp detected translated none,
              e3 ++ [Event.cacheWrite key, Event.statusEmit "translate" "Translation complete."],
              c.set key (.trRes detected translated none) now⟩

/-- The `POST /summarize` handler of `src/server.js` lines 120-173, given
the Azure API key from the environment and an upstream oracle fed to
`retryRequest` (through the serializing scheduler, which does not change a
single call's result). Missing or empty `text` is rejected with 400 before
any effect; the cache is consulted before the key check, so only a
non-cached request can hit the missing-key 500. -/
def summarizeHandler (azureKey : Option String) (aiUpstream : Nat → UpResp)
    (c : Cache) (now : Nat) (text : Option String) : HandlerOut :=
  if jsFalsy text then
    ⟨400, .errOnly "Text is required.", [], c⟩
  else
    let t := text.getD ""
    let e0 := [Event.statusEmit "summarize" "Summarizing..."]
    let key := "summarize:" ++ t
    let e1 := e0 ++ [Event.cacheRead key]
    let hit := match c.get key now with
      | some v => if v.truthy then some v else none
      | none => none
    match hit with
    | some v =>
      ⟨200, .summaryResp v.asStr,
        e1 ++ [Event.statusEmit "summarize" "Summarization complete (cached)."], c⟩
    | none =>
      if jsFalsy azureKey then
        ⟨500, .errOnly "API key not found. Set the AZURE_OPENAI_API_KEY environment variable.",
          e1 ++ [Event.statusEmit "summarize" "Summarization failed."], c⟩
      else
        let e2 := e1 ++ [Event.upstreamCall "ai"]
        let run := retryRequestDefault aiUpstream
        match run.outcome with
        | .success data =>
          let summary := data.trim
          ⟨200, .summaryResp summary,
            e2 ++ [Event.cacheWrite key, Event.statusEmit "summarize" "Summarization complete."],
            c.set key (.str summary) now⟩
        | .quotaExhausted =>
          ⟨500, .errDetails "Summarization failed" "API quota exhausted. Please check your subscription.",
            e2 ++ [Event.statusEmit "summarize" "Summarization failed."], c⟩
        | .failure e =>
          ⟨500, .errDetails "Summarization failed" e.message,
            e2 ++ [Event.statusEmit "summarize" "Summarization failed."], c⟩

/-- The `POST /analyze-symptoms` handler of `src/server.js` lines 176-226.
Unlike the summarize handler it never checks the Azure API key: a missing
key only surfaces when the upstream call itself fails. -/
def analyzeSymptomsHandler (aiUpstream : Nat → UpResp)
    (c : Cache) (now : Nat) (symptoms : Option String) : HandlerOut :=
  if jsFalsy symptoms then
    ⟨400, .errOnly "Symptoms are required.", [], c⟩
  else
    let s := symptoms.getD ""
    let e0 := [Event.statusEmit "symptoms" "Analyzing symptoms..."]
    let key := "symptoms:" ++ s
    let e1 := e0 ++ [Event.cacheRead key]
    let hit := match c.get key now with
      | some v => if v.truthy then some v else none
      | none => none
    match hit with
    | some v =>
      ⟨200, .analysisResp v.asStr,
        e1 ++ [Event.statusEmit "symptoms" "Analysis complete (cached)."], c⟩
    | none =>
      let e2 := e1 ++ [Event.upstreamCall "ai"]
      let run := retryRequestDefault aiUpstream
      match run.outcome with
      | .success data =>
        let analysis := data.trim
        ⟨200, .analysisResp analysis,
          e2 ++ [Event.cacheWrite key, Event.statusEmit "symptoms" "Analysis complete."],
          c.set key (.str analysis) now⟩
      | .quotaExhausted =>
        ⟨500, .errDetails "Symptom analysis failed" "API quota exhausted. Please check your subscription.",
          e2 ++ [Event.statusEmit "symptoms" "Analysis failed."], c⟩
      | .failure e =>
        ⟨500, .errDetails "Symptom analysis failed" e.message,
          e2 ++ [Event.statusEmit "symptoms" "Analysis failed."], c⟩

/-- The process environment the server reads at startup. -/
structure Env where
  googleKey : Option String
  azureKey : Option String
  azureEndpoint : Option String

/-- The configuration constants of `src/server.js` lines 24-26. -/
structure ServerConfig where
  googleTranslationApiKey : Option String
  azureAiApiKey : Option String
  azureAiEndpoint : String

/-- Startup configuration loading (`src/server.js` lines 24-26): the keys
are read as they are, with no validation and no failure path, and the
endpoint falls back to the hard-coded default when absent or empty. -/
def loadConfig (e : Env) : ServerConfig :=
  ⟨e.googleKey, e.azureKey,
    if jsFalsy e.azureEndpoint then "https://gendem.cognitiveservices.azure.com/"
    else e.azureEndpoint.getD ""⟩

/-- The three rate-limited endpoints. -/
inductive Endpoint where
  | translate
  | summarize
  | symptoms
  deriving DecidableEq, Repr

/-- An incoming request as the rate limiter sees it: the client identity
(IP), the endpoint hit, and the arrival time in milliseconds. -/
structure Request where
  client : String
  endpoint : Endpoint
  time : Nat
  deriving DecidableEq, Repr

/-- Window length of the `apiLimiter` of `src/server.js` line 38:
`60 * 1000` ms. -/
def windowMs : Nat := 60 * 1000

/-- Request budget per window per client of the `apiLimiter`: `max: 15`. -/
def rlMax : Nat := 15

/-- State of the rate limiter's store: per client key, the hit count of
the current window and the instant the window resets. Modelled from the
documented semantics of the `express-rate-limit` middleware as configured
on line 37-46 of `src/server.js`; the single `apiLimiter` instance keys
its store by client only, so the three routes share each client's
counter. -/
structure LimiterState where
  entries : String → Option (Nat × Nat)

/-- The limiter store before any request. -/
def LimiterState.empty : LimiterState := ⟨fun _ => none⟩

/-- Record one hit for `key` at time `now`: a fresh or expired window
restarts at count 1 with reset instant `now + windowMs`, otherwise the
count increments. Returns the count after the hit. -/
def limiterHit (s : LimiterState) (key : String) (now : Nat) :
    Nat × LimiterState :=
  let next := match s.entries key with
    | some (c, reset) => if reset ≤ now then (1, now + windowMs) else (c + 1, reset)
    | none => (1, now + windowMs)
  (next.1, ⟨fun k => if k = key then some next else s.entries k⟩)

/-- The body of the limiter's 429 answer, from the `message` option of
`apiLimiter`. -/
def rateLimitBody : RespBody :=
  .rateLimitResp "Too many requests, please try again after a minute."
    "API rate limits apply."

/-- What the `apiLimiter` middleware sends when it rejects a request:
HTTP status 429, the configured message body, and no status event (the
middleware answers before the handler runs and emits nothing). -/
def rateLimitReject : Nat × RespBody × List Event := (429, rateLimitBody, [])

/-- One request through the `apiLimiter` middleware, which all three POST
routes attach: the hit is recorded against the client key regardless of
which endpoint is addressed, and the request passes iff the count stays
within the budget. -/
def rateLimitStep (s : LimiterState) (r : Request) : Bool × LimiterState :=
  let (hits, s') := limiterHit s r.client r.time
  (hits ≤ rlMax, s')

/-- The limiter's verdicts on a request sequence, in order: `true` means
the request reaches its handler, `false` means it is answered with 429 and
`rateLimitBody`. -/
def rateLimitRun (s : LimiterState) : List Request → List Bool
  | [] => []
  | r :: rs =>
    let (ok, s') := rateLimitStep s r
    ok :: rateLimitRun s' rs

/-- Mock upstream for the retry scenario of the spec: the first attempt is
answered 429 with a `retry-after: 3` header and no quota message, every
later attempt succeeds. -/
def retryAfterThenOk : Nat → UpResp
  | 0 => .err ⟨some ⟨429, some 3, none⟩, "Request failed with status code 429"⟩
  | _ => .ok "done"

/-- Mock upstream that always answers 429 with a quota-exceeded message. -/
def alwaysQuota429 : Nat → UpResp := fun _ =>
  .err ⟨some ⟨429, none, some "Quota exceeded for this resource"⟩,
    "Request failed with status code 429"⟩

/-- A plain 429 error with no quota message and no retry-after header. -/
def plain429 : UpError :=
  ⟨some ⟨429, none, none⟩, "Request failed with status code 429"⟩

/-- Mock upstream that always answers with `plain429`. -/
def always429 : Nat → UpResp := fun _ => .err plain429

/-- An authentication failure, as an upstream answers a request sent
without a valid API key. -/
def authFailure : UpError :=
  ⟨some ⟨401, none, none⟩, "Request failed with status code 401"⟩

/-- Sixteen requests from one client to `/translate`, one second apart,
all inside a single one-minute window. -/
def reqs16 : List Request :=
  (List.range 16).map fun i => ⟨"1.2.3.4", .translate, i * 1000⟩

/-- Eight requests to `/translate` followed by eight to `/summarize`,
all from one client, one second apart, inside a single window. -/
def reqsMix : List Request :=
  ((List.range 8).map fun i => (⟨"1.2.3.4", .translate, i * 1000⟩ : Request)) ++
  ((List.range 8).map fun i => (⟨"1.2.3.4", .summarize, (8 + i) * 1000⟩ : Request))

lemma is429NonQuota_spec {x : UpResp} (h : is429NonQuota x = true) :
    ∃ e r, x = .err e ∧ e.response = some r ∧ r.status = 429 ∧
      quotaExceededMsg r.errMessage = false := by
  cases x with
  | ok d => simp [is429NonQuota] at h
  | err e =>
    cases hr : e.response with
    | none => simp [is429NonQuota, hr] at h
    | some r =>
      simp [is429NonQuota, hr] at h
      exact ⟨e, r, rfl, hr, h.1, by simp [h.2]⟩

/-- Claim C1: on a 429 without a quota message while retries remain,
`retryRequest` waits the retry-after header value in seconds when present
(otherwise the current delay), then reissues the request with the delay
doubled and the retry count decremented; with the defaults (5 retries,
2000 ms initial delay), the spec's mock upstream answering 429 with
retry-after 3 and then 200 yields success after exactly 2 attempts and a
total wait of 3000 ms, which is at least 3 seconds. -/
theorem retryRequest_429_retry_behavior :
    (∀ (upstream : Nat → UpResp) (attempt retries d : Nat) (e : UpError) (r : ErrResponse),
      upstream attempt = .err e →
      e.response = some r →
      r.status = 429 →
      quotaExceededMsg r.errMessage = false →
      retryRequest upstream attempt (retries + 1) d =
        ⟨(retryRequest upstream (attempt + 1) retries (d * 2)).outcome,
         (retryRequest upstream (attempt + 1) retries (d * 2)).attempts + 1,
         (retryRequest upstream (attempt + 1) retries (d * 2)).totalWaitMs
           + (r.retryAfter.getD (d / 1000)) * 1000⟩) ∧
    retryRequestDefault retryAfterThenOk = ⟨.success "done", 2, 3000⟩ ∧
    defaultRetries = 5 ∧ defaultInitialDelay = 2000 ∧ 3 * 1000 ≤ 3000 := by
  refine ⟨?_, by decide, rfl, rfl, by norm_num⟩
  intro u attempt retries d e r hu hresp h429 hquota
  simp [retryRequest, hu, hresp, h429, hquota]

/-- Witness for C1: the retry equation instantiated at the mock upstream's
first attempt, every hypothesis discharged by evaluation. -/
theorem retryRequest_429_retry_behavior_witness :
    retryRequest retryAfterThenOk 0 (4 + 1) 2000 =
      ⟨(retryRequest retryAfterThenOk (0 + 1) 4 (2000 * 2)).outcome,
       (retryRequest retryAfterThenOk (0 + 1) 4 (2000 * 2)).attempts + 1,
       (retryRequest retryAfterThenOk (0 + 1) 4 (2000 * 2)).totalWaitMs
         + ((some 3).getD (2000 / 1000)) * 1000⟩ :=
  retryRequest_429_retry_behavior.1 retryAfterThenOk 0 4 2000
    ⟨some ⟨429, some 3, none⟩, "Request failed with status code 429"⟩
    ⟨429, some 3, none⟩ rfl rfl rfl rfl

/-- Claim C2: when the upstream answers 429 with a body whose error
message indicates quota exhaustion and retries remain, `retryRequest`
throws the terminal quota-exhaustion error at once: one single attempt,
no wait, no retry. -/
theorem retryRequest_quota_exhausted_immediate :
    ∀ (upstream : Nat → UpResp) (attempt retries d : Nat) (e : UpError) (r : ErrResponse),
      0 < retries →
      upstream attempt = .err e →
      e.response = some r →
      r.status = 429 →
      quotaExceededMsg r.errMessage = true →
      retryRequest upstream attempt retries d = ⟨.quotaExhausted, 1, 0⟩ := by
  intro u attempt retries d e r hpos hu hresp h429 hquota
  obtain ⟨n, rfl⟩ : ∃ n, retries = n + 1 := ⟨retries - 1, by omega⟩
  simp [retryRequest, hu, hresp, h429, hquota]

/-- Witness for C2: the always-quota-exhausted upstream under the default
parameters fails terminally with a single attempt. -/
theorem retryRequest_quota_exhausted_immediate_witness :
    retryRequest alwaysQuota429 0 5 2000 = ⟨.quotaExhausted, 1, 0⟩ :=
  retryRequest_quota_exhausted_immediate alwaysQuota429 0 5 2000
    ⟨some ⟨429, none, some "Quota exceeded for this resource"⟩,
      "Request failed with status code 429"⟩
    ⟨429, none, some "Quota exceeded for this resource"⟩
    (by norm_num) rfl rfl rfl (by decide)

/-- Claim C3: any upstream error that is not an HTTP 429 response is
propagated immediately after a single attempt; and when every attempt is
answered with a retriable 429, the run exhausts its budget of `retries`
extra attempts and propagates the error of the last attempt. -/
theorem retryRequest_propagates_errors :
    (∀ (upstream : Nat → UpResp) (attempt retries d : Nat) (e : UpError),
      upstream attempt = .err e →
      (∀ r, e.response = some r → r.status ≠ 429) →
      retryRequest upstream attempt retries d = ⟨.failure e, 1, 0⟩) ∧
    (∀ (upstream : Nat → UpResp) (attempt retries d : Nat),
      (∀ i, i ≤ retries → is429NonQuota (upstream (attempt + i)) = true) →
      ∃ e, upstream (attempt + retries) = .err e ∧
        (retryRequest upstream attempt retries d).outcome = .failure e ∧
        (retryRequest upstream attempt retries d).attempts = retries + 1) := by
  constructor
  · intro u attempt retries d e hu hne
    cases retries with
    | zero => simp [retryRequest, hu]
    | succ n =>
      cases hr : e.response with
      | none => simp [retryRequest, hu, hr]
      | some r =>
        have hne' := hne r hr
        simp [retryRequest, hu, hr, hne']
  · intro u attempt retries d h
    induction retries generalizing attempt d with
    | zero =>
      obtain ⟨e, r, he, hresp, h429, hquota⟩ :=
        is429NonQuota_spec (by simpa using h 0 (Nat.le_refl 0))
      exact ⟨e, by simpa using he, by simp [retryRequest, he], by simp [retryRequest, he]⟩
    | succ n ih =>
      obtain ⟨e0, r0, he0, hresp0, h429, hquota⟩ :=
        is429NonQuota_spec (by simpa using h 0 (Nat.zero_le _))
      have step : retryRequest u attempt (n + 1) d =
          ⟨(retryRequest u (attempt + 1) n (d * 2)).outcome,
           (retryRequest u (attempt + 1) n (d * 2)).attempts + 1,
           (retryRequest u (attempt + 1) n (d * 2)).totalWaitMs
             + (r0.retryAfter.getD (d / 1000)) * 1000⟩ := by
        simp [retryRequest, he0, hresp0, h429, hquota]
      obtain ⟨e, hue, hout, hatt⟩ := ih (attempt + 1) (d * 2)
        (fun i hi => by
          have := h (i + 1) (Nat.succ_le_succ hi)
          rwa [show attempt + (i + 1) = attempt + 1 + i by omega] at this)
      refine ⟨e, ?_, ?_, ?_⟩
      · rwa [show attempt + (n + 1) = attempt + 1 + n by omega]
      · rw [step]; exact hout
      · rw [step]; simp [hatt]

/-- Witness for C3: a 401 error is propagated at once, and an upstream
always answering a retriable 429 exhausts the default budget with 6
attempts and propagates the last 429. -/
theorem retryRequest_propagates_errors_witness :
    retryRequest (fun _ => .err authFailure) 0 5 2000 = ⟨.failure authFailure, 1, 0⟩ ∧
    (∃ e, always429 (0 + 5) = .err e ∧
      (retryRequest always429 0 5 2000).outcome = .failure e ∧
      (retryRequest always429 0 5 2000).attempts = 5 + 1) :=
  ⟨retryRequest_propagates_errors.1 (fun _ => .err authFailure) 0 5 2000 authFailure
      rfl (fun r hr => by cases hr; decide),
   retryRequest_propagates_errors.2 always429 0 5 2000 (fun i _ => rfl)⟩

/-- Claim C4: a cache entry written by `set` is visible to a `get` with
the same key performed immediately, and a `get` strictly more than the
3600-second TTL after the `set` is a miss. -/
theorem cache_set_get_ttl :
    (∀ (c : Cache) (k : String) (v : CVal) (t : Nat),
      (c.set k v t).get k t = some v) ∧
    (∀ (c : Cache) (k : String) (v : CVal) (t t' : Nat),
      t + cacheTTLms < t' → (c.set k v t).get k t' = none) := by
  constructor
  · intro c k v t
    simp [Cache.set, Cache.get]
  · intro c k v t t' h
    simp [Cache.set, Cache.get]
    omega

/-- Witness for C4: a concrete set at time 100 is read back at time 100
and missed one millisecond past its TTL. -/
theorem cache_set_get_ttl_witness :
    (Cache.empty.set "k" (.str "v") 100).get "k" 100 = some (.str "v") ∧
    (Cache.empty.set "k" (.str "v") 100).get "k" (100 + cacheTTLms + 1) = none :=
  ⟨cache_set_get_ttl.1 Cache.empty "k" (.str "v") 100,
   cache_set_get_ttl.2 Cache.empty "k" (.str "v") 100 (100 + cacheTTLms + 1) (by omega)⟩

/-- Claim C5: a request to any of the three endpoints whose body misses a
required field (or carries it empty, which JavaScript treats the same) is
answered 400 with no side effect at all: no status event, no cache read,
no upstream call; in particular `POST /summarize` with an empty body
yields 400 with error `Text is required.`. -/
theorem handlers_validate_before_effects :
    (∀ (detect : String → Except UpError String)
       (tApi : String → String → String → Except UpError String)
       (c : Cache) (now : Nat) (text tl : Option String),
      (jsFalsy text || jsFalsy tl) = true →
      (translateHandler detect tApi c now text tl).status = 400 ∧
      (translateHandler detect tApi c now text tl).body =
        .errOnly "Text and target language are required." ∧
      (translateHandler detect tApi c now text tl).events = []) ∧
    (∀ (azureKey : Option String) (ai : Nat → UpResp) (c : Cache) (now : Nat)
       (text : Option String),
      jsFalsy text = true →
      (summarizeHandler azureKey ai c now text).status = 400 ∧
      (summarizeHandler azureKey ai c now text).body = .errOnly "Text is required." ∧
      (summarizeHandler azureKey ai c now text).events = []) ∧
    (∀ (ai : Nat → UpResp) (c : Cache) (now : Nat) (symptoms : Option String),
      jsFalsy symptoms = true →
      (analyzeSymptomsHandler ai c now symptoms).status = 400 ∧
      (analyzeSymptomsHandler ai c now symptoms).body = .errOnly "Symptoms are required." ∧
      (analyzeSymptomsHandler ai c now symptoms).events = []) ∧
    ((summarizeHandler (some "key") (fun _ => .ok "sum") Cache.empty 0 none).status = 400 ∧
     (summarizeHandler (some "key") (fun _ => .ok "sum") Cache.empty 0 none).body =
       .errOnly "Text is required.") := by
  refine ⟨?_, ?_, ?_, rfl, rfl⟩
  · intro detect tApi c now text tl h
    exact ⟨by simp [translateHandler, h], by simp [translateHandler, h],
      by simp [translateHandler, h]⟩
  · intro azureKey ai c now text h
    exact ⟨by simp [summarizeHandler, h], by simp [summarizeHandler, h],
      by simp [summarizeHandler, h]⟩
  · intro ai c now symptoms h
    exact ⟨by simp [analyzeSymptomsHandler, h], by simp [analyzeSymptomsHandler, h],
      by simp [analyzeSymptomsHandler, h]⟩

/-- Witness for C5: each handler rejects the empty body with 400 and an
empty effect trace. -/
theorem handlers_validate_before_effects_witness :
    ((translateHandler (fun _ => .ok "es") (fun _ _ _ => .ok "X") Cache.empty 0
        none none).status = 400 ∧
      (translateHandler (fun _ => .ok "es") (fun _ _ _ => .ok "X") Cache.empty 0
        none none).body = .errOnly "Text and target language are required." ∧
      (translateHandler (fun _ => .ok "es") (fun _ _ _ => .ok "X") Cache.empty 0
        none none).events = []) ∧
    ((summarizeHandler (some "key") (fun _ => .ok "sum") Cache.empty 0 none).status = 400 ∧
      (summarizeHandler (some "key") (fun _ => .ok "sum") Cache.empty 0 none).body =
        .errOnly "Text is required." ∧
      (summarizeHandler (some "key") (fun _ => .ok "sum") Cache.empty 0 none).events = []) ∧
    ((analyzeSymptomsHandler (fun _ => .ok "a") Cache.empty 0 none).status = 400 ∧
      (analyzeSymptomsHandler (fun _ => .ok "a") Cache.empty 0 none).body =
        .errOnly "Symptoms are required." ∧
      (analyzeSymptomsHandler (fun _ => .ok "a") Cache.empty 0 none).events = []) :=
  ⟨handlers_validate_before_effects.1 (fun _ => .ok "es") (fun _ _ _ => .ok "X")
      Cache.empty 0 none none (by decide),
   handlers_validate_before_effects.2.1 (some "key") (fun _ => .ok "sum")
      Cache.empty 0 none (by decide),
   handlers_validate_before_effects.2.2.1 (fun _ => .ok "a") Cache.empty 0 none (by decide)⟩

/-- Counterexample for C6 as stated: on the body with text `Hola` and
target language `es`, with detection answering `es`, the response body is
not the two-field object of the claim — it carries a third field,
message `Same language detected.`. -/
theorem translate_same_language_message_counterexample :
    (translateHandler (fun _ => .ok "es") (fun _ _ _ => .ok "X") Cache.empty 0
        (some "Hola") (some "es")).body ≠
      .translateResp "es" "Hola" none ∧
    (translateHandler (fun _ => .ok "es") (fun _ _ _ => .ok "X") Cache.empty 0
        (some "Hola") (some "es")).body =
      .translateResp "es" "Hola" (some "Same language detected.") := by
  exact ⟨by decide, rfl⟩

/-- Claim C6 as amended: language detection runs before any translation
call (whenever the translation sub-endpoint is called, the detect call
precedes it in the effect trace), and when the detected language equals
the target the handler answers 200 without calling the translation
sub-endpoint, with body detectedLanguage `es`, translatedText `Hola` and
message `Same language detected.` in the concrete scenario. -/
theorem translate_detect_short_circuit :
    (∀ (detect : String → Except UpError String)
       (tApi : String → String → String → Except UpError String)
       (c : Cache) (now : Nat) (t tl : String),
      t ≠ "" → tl ≠ "" →
      c.get ("translate:" ++ t ++ ":" ++ tl) now = none →
      detect t = .ok tl →
      (translateHandler detect tApi c now (some t) (some tl)).status = 200 ∧
      (translateHandler detect tApi c now (some t) (some tl)).body =
        .translateResp tl t (some "Same language detected.") ∧
      Event.upstreamCall "translate" ∉
        (translateHandler detect tApi c now (some t) (some tl)).events ∧
      Event.upstreamCall "detect" ∈
        (translateHandler detect tApi c now (some t) (some tl)).events) ∧
    (∀ (detect : String → Except UpError String)
       (tApi : String → String → String → Except UpError String)
       (c : Cache) (now : Nat) (text tl : Option String),
      Event.upstreamCall "translate" ∈ (translateHandler detect tApi c now text tl).events →
      ∃ key, (translateHandler detect tApi c now text tl).events.take 4 =
        [Event.statusEmit "translate" "Translating...", Event.cacheRead key,
         Event.upstreamCall "detect", Event.upstreamCall "translate"]) ∧
    ((translateHandler (fun _ => .ok "es") (fun _ _ _ => .ok "X") Cache.empty 0
        (some "Hola") (some "es")).body =
      .translateResp "es" "Hola" (some "Same language detected.") ∧
     Event.upstreamCall "translate" ∉
       (translateHandler (fun _ => .ok "es") (fun _ _ _ => .ok "X") Cache.empty 0
         (some "Hola") (some "es")).events) := by
  refine ⟨?_, ?_, rfl, by decide⟩
  · intro detect tApi c now t tl ht htl hcache hdetect
    refine ⟨?_, ?_, ?_, ?_⟩ <;>
      simp [translateHandler, jsFalsy, ht, htl, hcache, hdetect]
  · intro detect tApi c now text tl
    unfold translateHandler
    split
    · intro h; simp at h
    · simp only []
      split
      · intro h; simp at h
      · split
        · intro h; simp at h
        · split
          · intro h; simp at h
          · split
            · intro _
              exact ⟨"translate:" ++ text.getD "" ++ ":" ++ tl.getD "", by simp⟩
            · intro _
              exact ⟨"translate:" ++ text.getD "" ++ ":" ++ tl.getD "", by simp⟩

/-- Witness for C6: the short-circuit and ordering facts instantiated at
the concrete `Hola`/`es` request against the empty cache. -/
theorem translate_detect_short_circuit_witness :
    ((translateHandler (fun _ => .ok "es") (fun _ _ _ => .ok "X") Cache.empty 0
        (some "Hola") (some "es")).status = 200 ∧
      (translateHandler (fun _ => .ok "es") (fun _ _ _ => .ok "X") Cache.empty 0
        (some "Hola") (some "es")).body =
        .translateResp "es" "Hola" (some "Same language detected.") ∧
      Event.upstreamCall "translate" ∉
        (translateHandler (fun _ => .ok "es") (fun _ _ _ => .ok "X") Cache.empty 0
          (some "Hola") (some "es")).events ∧
      Event.upstreamCall "detect" ∈
        (translateHandler (fun _ => .ok "es") (fun _ _ _ => .ok "X") Cache.empty 0
          (some "Hola") (some "es")).events) :=
  translate_detect_short_circuit.1 (fun _ => .ok "es") (fun _ _ _ => .ok "X")
    Cache.empty 0 "Hola" "es" (by decide) (by decide) rfl rfl

/-- Claim C7: the limiter shared by the three endpoints admits 15
requests per minute per client — a further request from a client whose
window count has reached the budget is rejected, whatever the endpoint —
the rejection is a 429 carrying the configured error and details message,
and a client issuing 16 requests to `/translate` within one minute has
exactly the 16th rejected. -/
theorem rate_limit_15_per_minute :
    (∀ (s : LimiterState) (key : String) (ep : Endpoint) (now cnt reset : Nat),
      s.entries key = some (cnt, reset) →
      now < reset →
      rlMax ≤ cnt →
      (rateLimitStep s ⟨key, ep, now⟩).1 = false) ∧
    rateLimitRun LimiterState.empty reqs16 = List.replicate 15 true ++ [false] ∧
    rlMax = 15 ∧ windowMs = 60 * 1000 ∧
    rateLimitReject =
      (429, .rateLimitResp "Too many requests, please try again after a minute."
        "API rate limits apply.", []) := by
  refine ⟨?_, by decide, rfl, rfl, rfl⟩
  intro s key ep now cnt reset hs hnow hcnt
  have hrt : ¬(reset ≤ now) := by omega
  simp only [rlMax] at hcnt
  simp [rateLimitStep, limiterHit, hs, hrt, rlMax]
  omega

/-- Witness for C7: a client whose window already counts 15 hits is
rejected on the next request. -/
theorem rate_limit_15_per_minute_witness :
    (rateLimitStep ⟨fun k => if k = "1.2.3.4" then some (15, 60000) else none⟩
      ⟨"1.2.3.4", .translate, 30000⟩).1 = false :=
  rate_limit_15_per_minute.1 ⟨fun k => if k = "1.2.3.4" then some (15, 60000) else none⟩
    "1.2.3.4" .translate 30000 15 60000 (by simp) (by omega) (by norm_num [rlMax])

/-- Claim C8: startup reads the environment without validating the AI
key, so the server comes up with the key simply absent; the first
non-cached `/summarize` request then answers 500 with the missing-key
error before any upstream call, and the first non-cached
`/analyze-symptoms` request answers 500 as well: it sends the upstream
call without a key and the upstream's rejection is converted to the
handler's 500 error body. -/
theorem missing_key_500_first_use :
    (∀ (g ep : Option String), (loadConfig ⟨g, none, ep⟩).azureAiApiKey = none) ∧
    (∀ (azureKey : Option String) (ai : Nat → UpResp) (c : Cache) (now : Nat) (t : String),
      jsFalsy azureKey = true →
      t ≠ "" →
      c.get ("summarize:" ++ t) now = none →
      (summarizeHandler azureKey ai c now (some t)).status = 500 ∧
      (summarizeHandler azureKey ai c now (some t)).body =
        .errOnly "API key not found. Set the AZURE_OPENAI_API_KEY environment variable." ∧
      Event.upstreamCall "ai" ∉ (summarizeHandler azureKey ai c now (some t)).events) ∧
    (∀ (ai : Nat → UpResp) (c : Cache) (now : Nat) (s : String) (e : UpError),
      s ≠ "" →
      c.get ("symptoms:" ++ s) now = none →
      (retryRequestDefault ai).outcome = .failure e →
      (analyzeSymptomsHandler ai c now (some s)).status = 500 ∧
      (analyzeSymptomsHandler ai c now (some s)).body =
        .errDetails "Symptom analysis failed" e.message) := by
  refine ⟨fun g ep => rfl, ?_, ?_⟩
  · intro azureKey ai c now t hkey ht hcache
    have h1 : jsFalsy (some t) = false := by simp [jsFalsy, ht]
    refine ⟨?_, ?_, ?_⟩ <;>
      simp [summarizeHandler, h1, hcache, hkey]
  · intro ai c now s e hs hcache hout
    have h1 : jsFalsy (some s) = false := by simp [jsFalsy, hs]
    constructor <;>
      simp [analyzeSymptomsHandler, h1, hcache, hout]

/-- Witness for C8: the empty environment loads, a keyless summarize
request on an empty cache yields the missing-key 500 with no upstream
call, and a keyless symptom analysis whose upstream rejects with 401
yields the 500 error body. -/
theorem missing_key_500_first_use_witness :
    ((summarizeHandler none (fun _ => .ok "sum") Cache.empty 0 (some "hi")).status = 500 ∧
      (summarizeHandler none (fun _ => .ok "sum") Cache.empty 0 (some "hi")).body =
        .errOnly "API key not found. Set the AZURE_OPENAI_API_KEY environment variable." ∧
      Event.upstreamCall "ai" ∉
        (summarizeHandler none (fun _ => .ok "sum") Cache.empty 0 (some "hi")).events) ∧
    ((analyzeSymptomsHandler (fun _ => .err authFailure) Cache.empty 0 (some "cough")).status = 500 ∧
      (analyzeSymptomsHandler (fun _ => .err authFailure) Cache.empty 0 (some "cough")).body =
        .errDetails "Symptom analysis failed" authFailure.message) :=
  ⟨missing_key_500_first_use.2.1 none (fun _ => .ok "sum") Cache.empty 0 "hi"
      (by decide) (by decide) rfl,
   missing_key_500_first_use.2.2 (fun _ => .err authFailure) Cache.empty 0 "cough"
      authFailure (by decide) rfl rfl⟩

/-- Counterexample for C9 as stated: `POST /summarize` with an empty body
ends in a 400 error response, yet the handler emits no status event at
all — no `failed` event accompanies the validation error. -/
theorem no_failed_event_on_400_counterexample :
    (summarizeHandler (some "key") (fun _ => .ok "sum") Cache.empty 0 none).status = 400 ∧
    (summarizeHandler (some "key") (fun _ => .ok "sum") Cache.empty 0 none).events = [] :=
  ⟨rfl, rfl⟩

/-- Claim C9 as amended: every 500 response of the three handlers is
accompanied by a `failed` status event for the corresponding action,
while 400 validation responses and the limiter's 429 rejection are sent
with no status event at all. -/
theorem failed_event_on_500 :
    (∀ (detect : String → Except UpError String)
       (tApi : String → String → String → Except UpError String)
       (c : Cache) (now : Nat) (text tl : Option String),
      (translateHandler detect tApi c now text tl).status = 500 →
      Event.statusEmit "translate" "Translation failed." ∈
        (translateHandler detect tApi c now text tl).events) ∧
    (∀ (azureKey : Option String) (ai : Nat → UpResp) (c : Cache) (now : Nat)
       (text : Option String),
      (summarizeHandler azureKey ai c now text).status = 500 →
      Event.statusEmit "summarize" "Summarization failed." ∈
        (summarizeHandler azureKey ai c now text).events) ∧
    (∀ (ai : Nat → UpResp) (c : Cache) (now : Nat) (symptoms : Option String),
      (analyzeSymptomsHandler ai c now symptoms).status = 500 →
      Event.statusEmit "symptoms" "Analysis failed." ∈
        (analyzeSymptomsHandler ai c now symptoms).events) ∧
    (∀ (detect : String → Except UpError String)
       (tApi : String → String → String → Except UpError String)
       (c : Cache) (now : Nat) (text tl : Option String),
      (translateHandler detect tApi c now text tl).status = 400 →
      (translateHandler detect tApi c now text tl).events = []) ∧
    (∀ (azureKey : Option String) (ai : Nat → UpResp) (c : Cache) (now : Nat)
       (text : Option String),
      (summarizeHandler azureKey ai c now text).status = 400 →
      (summarizeHandler azureKey ai c now text).events = []) ∧
    (∀ (ai : Nat → UpResp) (c : Cache) (now : Nat) (symptoms : Option String),
      (analyzeSymptomsHandler ai c now symptoms).status = 400 →
      (analyzeSymptomsHandler ai c now symptoms).events = []) ∧
    rateLimitReject.2.2 = [] := by
  refine ⟨?_, ?_, ?_, ?_, ?_, ?_, rfl⟩
  · intro detect tApi c now text tl
    unfold translateHandler
    split
    · intro h; simp at h
    · simp only []
      split
      · intro h; simp at h
      · split
        · intro _; simp
        · split
          · intro h; simp at h
          · split
            · intro _; simp
            · intro h; simp at h
  · intro azureKey ai c now text
    unfold summarizeHandler
    split
    · intro h; simp at h
    · simp only []
      split
      · intro h; simp at h
      · split
        · intro _; simp
        · split
          · intro h; simp at h
          · intro _; simp
          · intro _; simp
  · intro ai c now symptoms
    unfold analyzeSymptomsHandler
    split
    · intro h; simp at h
    · simp only []
      split
      · intro h; simp at h
      · split
        · intro h; simp at h
        · intro _; simp
        · intro _; simp
  · intro detect tApi c now text tl
    unfold translateHandler
    split
    · intro _; rfl
    · simp only []
      split
      · intro h; simp at h
      · split
        · intro h; simp at h
        · split
          · intro h; simp at h
          · split
            · intro h; simp at h
            · intro h; simp at h
  · intro azureKey ai c now text
    unfold summarizeHandler
    split
    · intro _; rfl
    · simp only []
      split
      · intro h; simp at h
      · split
        · intro h; simp at h
        · split
          · intro h; simp at h
          · intro h; simp at h
          · intro h; simp at h
  · intro ai c now symptoms
    unfold analyzeSymptomsHandler
    split
    · intro _; rfl
    · simp only []
      split
      · intro h; simp at h
      · split
        · intro h; simp at h
        · intro h; simp at h
        · intro h; simp at h

/-- Witness for C9: a translate request whose detection call fails ends
in a 500 accompanied by the `Translation failed.` status event. -/
theorem failed_event_on_500_witness :
    Event.statusEmit "translate" "Translation failed." ∈
      (translateHandler (fun _ => .error authFailure) (fun _ _ _ => .ok "X")
        Cache.empty 0 (some "Hola") (some "es")).events :=
  failed_event_on_500.1 (fun _ => .error authFailure) (fun _ _ _ => .ok "X")
    Cache.empty 0 (some "Hola") (some "es") rfl

/-- Claim C10: the three routes share the single limiter instance, whose
store is keyed by client only — the limiter's verdict and state update do
not depend on which endpoint a request addresses — so 8 requests to
`/translate` followed by 8 to `/summarize` from one client within one
minute have exactly the 16th rejected. -/
theorem rate_limit_shared_across_endpoints :
    (∀ (s : LimiterState) (client : String) (t : Nat) (e e' : Endpoint),
      rateLimitStep s ⟨client, e, t⟩ = rateLimitStep s ⟨client, e', t⟩) ∧
    rateLimitRun LimiterState.empty reqsMix = List.replicate 15 true ++ [false] :=
  ⟨fun _ _ _ _ _ => rfl, by decide⟩

end Gateway
